import Mathlib

/-
Verification of the request-forwarding core of the `lite_proxy` repository
(`proxy/proxy_logic.py`), a model-routing reverse proxy for OpenAI-compatible
chat APIs.  The Python source is shallowly embedded: JSON documents become an
inductive type, Python `dict` update/lookup become association-list operations
with Python's semantics, raw HTTP bodies become lists of byte values, and the
collaborators (backend HTTP server, Mongo-backed log store) become explicit
behaviour parameters.  Exceptions are modelled with `Except`/explicit branches
mirroring the `try/except` structure of the source.
-/

namespace LiteProxy

/-- JSON documents as produced by Python's `json` module on the payloads this
proxy handles.  Numbers are modelled as integers; none of the verified
behaviour depends on fractional literals. -/
inductive Json where
  | null
  | bool (b : Bool)
  | num (n : Int)
  | str (s : String)
  | arr (elems : List Json)
  | obj (fields : List (String × Json))

/-- Python `dict` lookup `d.get(k)` on an insertion-ordered association list. -/
def dictGet {α : Type} (fields : List (String × α)) (k : String) : Option α :=
  (fields.find? (fun p => p.fst = k)).map (fun p => p.snd)

/-- Python `dict` assignment `d[k] = v`: replaces the value in place when the
key is present (keeping its position), otherwise appends the new binding. -/
def dictSet {α : Type} (fields : List (String × α)) (k : String) (v : α) :
    List (String × α) :=
  if fields.any (fun p => p.fst = k) then
    fields.map (fun p => if p.fst = k then (k, v) else p)
  else
    fields ++ [(k, v)]

/-- Python truthiness of a decoded JSON value (used by `if is_stream:` on the
value of `body.get("stream", False)`). -/
def jsonTruthy : Json → Bool
  | .null => false
  | .bool b => b
  | .num n => decide (n ≠ 0)
  | .str s => decide (s ≠ "")
  | .arr xs => !xs.isEmpty
  | .obj fs => !fs.isEmpty

/-- UTF-8 encoding of a single character. -/
def utf8EncodeChar (c : Char) : List Nat :=
  let n := c.toNat
  if n < 0x80 then [n]
  else if n < 0x800 then [0xC0 + n / 64, 0x80 + n % 64]
  else if n < 0x10000 then
    [0xE0 + n / 4096, 0x80 + (n / 64) % 64, 0x80 + n % 64]
  else
    [0xF0 + n / 262144, 0x80 + (n / 4096) % 64, 0x80 + (n / 64) % 64,
      0x80 + n % 64]

/-- UTF-8 encoding of a string, i.e. Python `s.encode("utf-8")`. -/
def utf8Encode (s : String) : List Nat :=
  (s.toList.map utf8EncodeChar).flatten

/-- Worker for `utf8Decode`; fuelled strict UTF-8 decoding including the
continuation-byte, overlong-form and surrogate checks Python's strict decoder
performs. -/
def utf8DecodeAux : Nat → List Nat → List Char → Option (List Char)
  | _, [], acc => some acc.reverse
  | 0, _ :: _, _ => none
  | fuel + 1, b :: rest, acc =>
    if b < 0x80 then utf8DecodeAux fuel rest (Char.ofNat b :: acc)
    else if 0xC2 ≤ b ∧ b ≤ 0xDF then
      match rest with
      | b1 :: rest1 =>
        if 0x80 ≤ b1 ∧ b1 ≤ 0xBF then
          utf8DecodeAux fuel rest1 (Char.ofNat ((b - 0xC0) * 64 + (b1 - 0x80)) :: acc)
        else none
      | [] => none
    else if 0xE0 ≤ b ∧ b ≤ 0xEF then
      match rest with
      | b1 :: b2 :: rest2 =>
        let lo1 := if b = 0xE0 then 0xA0 else 0x80
        let hi1 := if b = 0xED then 0x9F else 0xBF
        if (lo1 ≤ b1 ∧ b1 ≤ hi1) ∧ (0x80 ≤ b2 ∧ b2 ≤ 0xBF) then
          utf8DecodeAux fuel rest2
            (Char.ofNat ((b - 0xE0) * 4096 + (b1 - 0x80) * 64 + (b2 - 0x80)) :: acc)
        else none
      | _ => none
    else if 0xF0 ≤ b ∧ b ≤ 0xF4 then
      match rest with
      | b1 :: b2 :: b3 :: rest3 =>
        let lo1 := if b = 0xF0 then 0x90 else 0x80
        let hi1 := if b = 0xF4 then 0x8F else 0xBF
        if (lo1 ≤ b1 ∧ b1 ≤ hi1) ∧ (0x80 ≤ b2 ∧ b2 ≤ 0xBF) ∧
            (0x80 ≤ b3 ∧ b3 ≤ 0xBF) then
          utf8DecodeAux fuel rest3
            (Char.ofNat ((b - 0xF0) * 262144 + (b1 - 0x80) * 4096 +
              (b2 - 0x80) * 64 + (b3 - 0x80)) :: acc)
        else none
      | _ => none
    else none

/-- Python `bytes.decode("utf-8")`: `some` of the decoded text, or `none` when
the byte sequence is not valid UTF-8 (a `UnicodeDecodeError`). -/
def utf8Decode (bs : List Nat) : Option String :=
  (utf8DecodeAux (bs.length + 1) bs []).map (fun cs => String.mk cs)

/-- Lower-case hexadecimal digit. -/
def hexDigit (n : Nat) : Char :=
  if n < 10 then Char.ofNat (48 + n) else Char.ofNat (87 + n % 16)

/-- Four-digit hexadecimal rendering used by `\uXXXX` escapes. -/
def hex4 (n : Nat) : String :=
  String.mk [hexDigit ((n / 4096) % 16), hexDigit ((n / 256) % 16),
    hexDigit ((n / 16) % 16), hexDigit (n % 16)]

/-- Escaping of a single character as performed by Python `json.dumps` with
its defaults (`ensure_ascii=True`): non-ASCII characters become `\uXXXX`
escapes (surrogate pairs for astral code points). -/
def jsonEscapeChar (c : Char) : String :=
  if c = '"' then "\\\""
  else if c = '\\' then "\\\\"
  else if c = '\n' then "\\n"
  else if c = '\t' then "\\t"
  else if c = '\r' then "\\r"
  else if c.toNat = 8 then "\\b"
  else if c.toNat = 12 then "\\f"
  else if c.toNat < 0x20 then "\\u" ++ hex4 c.toNat
  else if c.toNat < 0x7F then String.mk [c]
  else if c.toNat < 0x10000 then "\\u" ++ hex4 c.toNat
  else
    "\\u" ++ hex4 (0xD800 + (c.toNat - 0x10000) / 1024) ++
      "\\u" ++ hex4 (0xDC00 + (c.toNat - 0x10000) % 1024)

/-- Quoted JSON string literal for `s`. -/
def jsonQuote (s : String) : String :=
  "\"" ++ String.join (s.toList.map jsonEscapeChar) ++ "\""

mutual

/-- Python `json.dumps` with default item and key separators
(`", "` and `": "`). -/
def json_dumps : Json → String
  | .null => "null"
  | .bool true => "true"
  | .bool false => "false"
  | .num n => toString n
  | .str s => jsonQuote s
  | .arr xs => "[" ++ dumpsElems xs ++ "]"
  | .obj fs => "\x7b" ++ dumpsFields fs ++ "\x7d"

/-- Comma-separated rendering of array elements. -/
def dumpsElems : List Json → String
  | [] => ""
  | [x] => json_dumps x
  | x :: y :: xs => json_dumps x ++ ", " ++ dumpsElems (y :: xs)

/-- Comma-separated rendering of object members. -/
def dumpsFields : List (String × Json) → String
  | [] => ""
  | [(k, v)] => jsonQuote k ++ ": " ++ json_dumps v
  | (k, v) :: f :: fs => jsonQuote k ++ ": " ++ json_dumps v ++ ", " ++ dumpsFields (f :: fs)

end

/-- JSON insignificant whitespace (the characters Python's `json` scanner
skips). -/
def isJsonWs (c : Char) : Bool :=
  c = ' ' || c = '\n' || c = '\t' || c = '\r'

/-- Drop leading JSON whitespace. -/
def skipWs : List Char → List Char
  | [] => []
  | c :: rest => if isJsonWs c then skipWs rest else c :: rest

/-- Value of a hexadecimal digit character, if any. -/
def hexVal (c : Char) : Option Nat :=
  if '0' ≤ c ∧ c ≤ '9' then some (c.toNat - 48)
  else if 'a' ≤ c ∧ c ≤ 'f' then some (c.toNat - 87)
  else if 'A' ≤ c ∧ c ≤ 'F' then some (c.toNat - 55)
  else none

/-- Scan the body of a JSON string literal (after the opening quote) up to its
closing quote, resolving escapes.  Lone `\uXXXX` escapes are mapped through
`Char.ofNat`; surrogate-pair recombination is not modelled. -/
def scanString : Nat → List Char → List Char → Option (String × List Char)
  | _, [], _ => none
  | 0, _ :: _, _ => none
  | fuel + 1, c :: rest, acc =>
    if c = '"' then some (String.mk acc.reverse, rest)
    else if c = '\\' then
      match rest with
      | 'n' :: r => scanString fuel r ('\n' :: acc)
      | 't' :: r => scanString fuel r ('\t' :: acc)
      | 'r' :: r => scanString fuel r ('\r' :: acc)
      | 'b' :: r => scanString fuel r (Char.ofNat 8 :: acc)
      | 'f' :: r => scanString fuel r (Char.ofNat 12 :: acc)
      | '"' :: r => scanString fuel r ('"' :: acc)
      | '\\' :: r => scanString fuel r ('\\' :: acc)
      | '/' :: r => scanString fuel r ('/' :: acc)
      | 'u' :: h1 :: h2 :: h3 :: h4 :: r =>
        match hexVal h1, hexVal h2, hexVal h3, hexVal h4 with
        | some a, some b, some c3, some d =>
          scanString fuel r (Char.ofNat (a * 4096 + b * 256 + c3 * 16 + d) :: acc)
        | _, _, _, _ => none
      | _ => none
    else scanString fuel rest (c :: acc)

/-- Scan a non-empty run of decimal digits, returning its value. -/
def scanDigits : List Char → Nat → Nat → Option (Nat × List Char)
  | [], 0, _ => none
  | [], _ + 1, acc => some (acc, [])
  | c :: rest, seen, acc =>
    if c.isDigit then scanDigits rest (seen + 1) (acc * 10 + (c.toNat - 48))
    else if seen = 0 then none
    else some (acc, c :: rest)

/-- Left-brace character, kept out of string literals. -/
def lbrace : Char := Char.ofNat 123

/-- Right-brace character, kept out of string literals. -/
def rbrace : Char := Char.ofNat 125

mutual

/-- Fuelled recursive-descent scanner for one JSON value, modelling the
grammar Python's `json.loads` accepts on the payloads this proxy handles
(number grammar restricted to optionally-signed integers). -/
def scanValue : Nat → List Char → Option (Json × List Char)
  | 0, _ => none
  | fuel + 1, cs =>
    match skipWs cs with
    | [] => none
    | c :: rest =>
      if c = 'n' then
        match rest with
        | 'u' :: 'l' :: 'l' :: r => some (.null, r)
        | _ => none
      else if c = 't' then
        match rest with
        | 'r' :: 'u' :: 'e' :: r => some (.bool true, r)
        | _ => none
      else if c = 'f' then
        match rest with
        | 'a' :: 'l' :: 's' :: 'e' :: r => some (.bool false, r)
        | _ => none
      else if c = '"' then
        (scanString (rest.length + 1) rest []).map (fun p => (.str p.fst, p.snd))
      else if c = '-' then
        (scanDigits rest 0 0).map (fun p => (.num (-(p.fst : Int)), p.snd))
      else if c.isDigit then
        (scanDigits (c :: rest) 0 0).map (fun p => (.num (p.fst : Int), p.snd))
      else if c = '[' then
        match skipWs rest with
        | ']' :: r => some (.arr [], r)
        | cs1 => (scanElems fuel cs1).map (fun p => (.arr p.fst, p.snd))
      else if c = lbrace then
        match skipWs rest with
        | c1 :: r =>
          if c1 = rbrace then some (.obj [], r)
          else
            (scanMembers fuel (c1 :: r)).map (fun p =>
              (.obj (p.fst.foldl (fun d kv => dictSet d kv.fst kv.snd) []), p.snd))
        | [] => none
      else none

/-- Scan the comma-separated elements of a non-empty JSON array, consuming the
closing bracket. -/
def scanElems : Nat → List Char → Option (List Json × List Char)
  | 0, _ => none
  | fuel + 1, cs =>
    match scanValue fuel cs with
    | none => none
    | some (v, r) =>
      match skipWs r with
      | c :: r1 =>
        if c = ',' then (scanElems fuel r1).map (fun p => (v :: p.fst, p.snd))
        else if c = ']' then some ([v], r1)
        else none
      | [] => none

/-- Scan the comma-separated members of a non-empty JSON object, consuming the
closing brace. -/
def scanMembers : Nat → List Char → Option (List (String × Json) × List Char)
  | 0, _ => none
  | fuel + 1, cs =>
    match skipWs cs with
    | c :: r =>
      if c = '"' then
        match scanString (r.length + 1) r [] with
        | some (k, r1) =>
          match skipWs r1 with
          | ':' :: r2 =>
            match scanValue fuel r2 with
            | some (v, r3) =>
              match skipWs r3 with
              | c2 :: r4 =>
                if c2 = ',' then
                  (scanMembers fuel r4).map (fun p => ((k, v) :: p.fst, p.snd))
                else if c2 = rbrace then some ([(k, v)], r4)
                else none
              | [] => none
            | none => none
          | _ => none
        | none => none
      else none
    | [] => none

end

/-- Python `json.loads`: parse the whole input as one JSON document (duplicate
object keys resolved by last occurrence, as Python dict construction does);
`none` models a raised `JSONDecodeError`. -/
def json_loads (s : String) : Option Json :=
  let cs := s.toList
  match scanValue (2 * cs.length + 4) cs with
  | some (v, rest) => if (skipWs rest).isEmpty then some v else none
  | none => none

/-- Configuration record for one proxy model (`core/database.py`,
`ProxyConfig`).  `backend_api_key` follows the source's `Optional[str]`; the
admin collaborator stores an empty string when the key field is left blank,
and the dispatch code tests the field with Python truthiness. -/
structure ProxyConfig where
  proxy_model_name : String
  base_url : String
  backend_model_name : String
  backend_api_key : Option String
  ignore_ssl_verify : Bool

/-- Inbound HTTP method as dispatched on by `proxy_request`. -/
inductive Method where
  | POST
  | GET
  | other (verb : String)

/-- The method name string (`request.method`). -/
def Method.name : Method → String
  | .POST => "POST"
  | .GET => "GET"
  | .other verb => verb

/-- Snapshot of the inbound request as `proxy_request` consumes it.
`body_json` is the outcome of `await request.json()` (`none` models a raised
`JSONDecodeError`); `body_text` the outcome of decoding the raw body bytes
(`none` models a decoding failure). -/
structure RequestIn where
  method : Method
  path : String
  query_params : List (String × String)
  authorization : Option String
  body_json : Option Json
  body_text : Option String

/-- A response body as captured into the audit log: a structured JSON
document or raw text. -/
inductive CapturedBody where
  | json (j : Json)
  | text (s : String)

/-- The audit-relevant fields of a persisted `LogEntry`
(`core/database.py`). -/
structure LogRecord where
  request_method : String
  request_path : String
  request_body : Option CapturedBody
  response_status_code : Nat
  response_body : Option CapturedBody

/-- Behaviour of the log-store collaborator during one dispatch:
`insert_error` is the exception message raised by `insert_one` (or `none` on
success), `find_result` the identifier returned by the recency lookup used on
the streaming path, and `update_error` the exception raised by
`update_one`. -/
structure LogStoreBehavior where
  insert_error : Option String
  find_result : Option Nat
  update_error : Option String

/-- Behaviour of the backend for the single HTTP call a dispatch makes:
either a transport-level connection failure, or a response with a status
code, headers and a sequence of body chunks (the full body being their
concatenation). -/
inductive BackendBehavior where
  | connectError (msg : String)
  | response (status : Nat) (headers : List (String × String)) (chunks : List (List Nat))

/-- The outbound HTTP request the proxy hands to the transport. -/
structure SentRequest where
  url : String
  verify : Bool
  headers : List (String × String)
  body : Option Json
  params : List (String × String)

/-- Caller-visible outcome of a dispatch: the value returned from
`proxy_request` as the web framework delivers it. -/
inductive CallerOutcome where
  | jsonBody (j : Json)
  | response (status : Nat) (content : String)
  | httpError (status : Nat) (detail : String)
  | stream (chunks : List (List Nat))

/-- Complete observable effect of one dispatch: the caller-visible outcome,
the outbound request (if one was built), the audit records inserted, and the
late body updates applied to the streaming record. -/
structure DispatchResult where
  outcome : CallerOutcome
  sent : Option SentRequest
  log : List LogRecord
  updates : List CapturedBody

/-- Lines 81-87 of `proxy_logic.py`: start from an empty header dict, copy the
caller's `Authorization` header when truthy, then overwrite it with
`Bearer <backend_api_key>` when the configured key is truthy. -/
def build_headers (authorization : Option String) (config : ProxyConfig) :
    List (String × String) :=
  let headers : List (String × String) := []
  let headers :=
    match authorization with
    | some a => if a = "" then headers else dictSet headers "Authorization" a
    | none => headers
  match config.backend_api_key with
  | some k => if k = "" then headers else dictSet headers "Authorization" ("Bearer " ++ k)
  | none => headers

/-- Header lookup in an outbound header dict. -/
def headerGet (headers : List (String × String)) (k : String) : Option String :=
  dictGet headers k

/-- Lines 31-41 of `proxy_logic.py`: capture a non-streaming response body.
An empty body is captured as absent; `response.json()` succeeding yields the
decoded Python value (the document, or `None` for the JSON literal `null`,
which leaves the field absent); a `JSONDecodeError` falls back to
`response.text`.  Bytes that are not valid UTF-8 make `response.json()`
raise a `UnicodeDecodeError`, which is not a `JSONDecodeError` and therefore
escapes the capture code (modelled as `Except.error`). -/
def capture_response_body (content : List Nat) : Except String (Option CapturedBody) :=
  if content.isEmpty then .ok none
  else
    match utf8Decode content with
    | none => .error "UnicodeDecodeError"
    | some text =>
      match json_loads text with
      | some .null => .ok none
      | some j => .ok (some (.json j))
      | none => .ok (some (.text text))

/-- Lines 44-55 of `proxy_logic.py`: capture the request body for POST/PUT
(parsed document — `None`, i.e. absent, for the JSON literal `null` — else
raw text, else absent).  The caller passes the request as the logging code
observes it: `request.json()` is cached by the framework, so on the POST
paths the dict whose `model` field line 102 overwrote is what gets
logged. -/
def capture_request_body (req : RequestIn) : Option CapturedBody :=
  if req.method.name = "POST" ∨ req.method.name = "PUT" then
    match req.body_json with
    | some .null => none
    | some j => some (.json j)
    | none =>
      match req.body_text with
      | some t => some (.text t)
      | none => none
  else none

/-- Whether a captured body fits the `LogEntry` pydantic schema
(`core/database.py` lines 40 and 43, `Optional[Dict[str, Any]]`): only an
absent body or a JSON object is admitted; raw text and non-object JSON
documents make the `LogEntry(...)` construction raise a
`ValidationError`. -/
def dict_body_ok : Option CapturedBody → Bool
  | none => true
  | some (.json (.obj _)) => true
  | some _ => false

/-- An absent body always fits the LogEntry schema. -/
theorem dict_body_ok_none : dict_body_ok none = true := rfl

/-- A JSON-object body always fits the LogEntry schema. -/
theorem dict_body_ok_obj (fields : List (String × Json)) :
    dict_body_ok (some (.json (.obj fields))) = true := rfl

/-- Lines 22-68 of `proxy_logic.py` (`log_request_response`): build the audit
record and insert it.  Constructing `LogEntry` at line 57 validates the
captured bodies against the pydantic schema and raises a `ValidationError`
(message abbreviated here) when either is not an absent-or-dict value; the
function catches neither this nor the `insert_one` collaborator failure
(`insert_error`).  For a streaming call the response body is recorded as
absent. -/
def log_request_response (insert_error : Option String) (req : RequestIn)
    (status : Nat) (content : List Nat) (is_stream : Bool) :
    Except String LogRecord :=
  match (if is_stream then .ok none else capture_response_body content :
      Except String (Option CapturedBody)) with
  | .error e => .error e
  | .ok rb =>
    if dict_body_ok rb && dict_body_ok (capture_request_body req) then
      match insert_error with
      | some e => .error e
      | none =>
        .ok { request_method := req.method.name, request_path := req.path,
              request_body := capture_request_body req,
              response_status_code := status, response_body := rb }
    else .error "ValidationError"

/-- Lines 138-142 of `proxy_logic.py`: the error payload relayed on a
backend status of at least 400 — the parsed document when the body decodes
as JSON, otherwise the raw text. -/
def error_detail_of (text : String) : Json :=
  match json_loads text with
  | some j => j
  | none => .str text

/-- Lines 160-167 of `proxy_logic.py`: the catch-all handler turning any
uncaught exception into an HTTP 500 JSON response carrying the exception
text. -/
def unexpected_error_response (msg : String) : CallerOutcome :=
  .response 500 (json_dumps (.obj [("error", .str ("Unexpected error: " ++ msg))]))

/-- Lines 153-159 of `proxy_logic.py`: a transport-level `httpx.RequestError`
becomes an HTTP 503 JSON response carrying the error text. -/
def connection_error_response (msg : String) : CallerOutcome :=
  .response 503 (json_dumps (.obj [("error", .str ("Connection error: " ++ msg))]))

/-- A dispatch that ended in the catch-all 500 handler: nothing further was
sent or logged beyond what already happened. -/
def mk500 (sent : Option SentRequest) (log : List LogRecord) (msg : String) :
    DispatchResult :=
  { outcome := unexpected_error_response msg, sent := sent, log := log, updates := [] }

/-- Lines 244 and 247 of `proxy_logic.py`: the single synthetic error event
yielded into the client stream,
`f-string data: \x7b"error": "<msg>"\x7d` followed by a blank line, encoded
as UTF-8. -/
def sse_error_chunk (msg : String) : List Nat :=
  utf8Encode ("data: \x7b\"error\": \"" ++ msg ++ "\"\x7d\n\n")

/-- Lines 201-212 of `proxy_logic.py` together with Python's rendering of the
raised `HTTPException` as caught by the generic handler at line 245:
`"<status>: <detail>"`, where the detail is the parsed error document (its
Python `str()` rendering approximated by JSON serialization) or the decoded
error text. -/
def http_exc_str (status : Nat) (chunks : List (List Nat)) : String :=
  let detail :=
    match utf8Decode chunks.flatten with
    | some t =>
      match json_loads t with
      | some j => json_dumps j
      | none => t
    | none => "UnicodeDecodeError"
  toString status ++ ": " ++ detail

/-- Lines 170-261 of `proxy_logic.py` (`handle_streaming_request` and its
generator): open the backend stream, write the provisional audit record, look
up its identifier by path and recency, relay every backend chunk verbatim
while accumulating it, and finalize the record with the accumulated body.
Exceptions inside the generator (connect failure, backend status of at least
400, collaborator insert failure) surface as one synthetic error event in the
stream; finalization failures (missing record, undecodable bytes, update
failure) are swallowed after the stream has been delivered. -/
def handle_streaming_request (req : RequestIn) (config : ProxyConfig)
    (sent : SentRequest) (bk : BackendBehavior) (ls : LogStoreBehavior) :
    DispatchResult :=
  match bk with
  | .connectError msg =>
    { outcome := .stream [sse_error_chunk
        ("Could not connect to backend: " ++ config.base_url ++ ". Error: " ++ msg)],
      sent := some sent, log := [], updates := [] }
  | .response status _hdrs chunks =>
    match log_request_response ls.insert_error req status [] true with
    | .error e =>
      { outcome := .stream [sse_error_chunk ("An unexpected error occurred: " ++ e)],
        sent := some sent, log := [], updates := [] }
    | .ok rec =>
      if 400 ≤ status then
        { outcome := .stream [sse_error_chunk
            ("An unexpected error occurred: " ++ http_exc_str status chunks)],
          sent := some sent, log := [rec], updates := [] }
      else
        let upd : List CapturedBody :=
          if ls.find_result.isSome && !chunks.isEmpty then
            match utf8Decode chunks.flatten with
            | none => []
            | some full =>
              match ls.update_error with
              | some _ => []
              | none =>
                match json_loads full with
                | some j => [.json j]
                | none => [.text full]
          else []
        { outcome := .stream chunks, sent := some sent, log := [rec], updates := upd }

/-- Lines 133-151 of `proxy_logic.py`: after a synchronous backend response,
log it, then either relay an error status with the re-serialized error
payload, or return the parsed 2xx body (a parse failure there reaching the
catch-all 500 handler). -/
def sync_finish (req : RequestIn) (sent : Option SentRequest) (status : Nat)
    (chunks : List (List Nat)) (ls : LogStoreBehavior) : DispatchResult :=
  match log_request_response ls.insert_error req status chunks.flatten false with
  | .error e => mk500 sent [] e
  | .ok rec =>
    if 400 ≤ status then
      { outcome := .response status
          (json_dumps (error_detail_of ((utf8Decode chunks.flatten).getD ""))),
        sent := sent, log := [rec], updates := [] }
    else
      match (utf8Decode chunks.flatten).bind json_loads with
      | some j => { outcome := .jsonBody j, sent := sent, log := [rec], updates := [] }
      | none => mk500 sent [rec] "JSONDecodeError"

/-- Lines 71-167 of `proxy_logic.py` (`proxy_request`): resolve the
configuration (already looked up by the collaborator and passed as
`config?`), build the backend URL and outbound headers, then dispatch by
method.  POST decodes the body, overwrites its `model` field with the backend
model name and branches on the truthiness of its `stream` field; GET forwards
query parameters; any other verb raises `HTTPException(405)` which the
function's own catch-all `except Exception` converts into the generic 500
response. -/
def proxy_request (req : RequestIn) (proxy_model_name : String)
    (config? : Option ProxyConfig) (bk : BackendBehavior)
    (ls : LogStoreBehavior) : DispatchResult :=
  match config? with
  | none =>
    { outcome := .httpError 404 ("Proxy model '" ++ proxy_model_name ++ "' not found."),
      sent := none, log := [], updates := [] }
  | some config =>
    let backend_url := config.base_url ++ req.path
    let headers := build_headers req.authorization config
    let verify := !config.ignore_ssl_verify
    match req.method with
    | .POST =>
      match req.body_json with
      | none => mk500 none [] "JSONDecodeError"
      | some body0 =>
        match body0 with
        | .obj fields0 =>
          let fields := dictSet fields0 "model" (.str config.backend_model_name)
          let is_stream := jsonTruthy ((dictGet fields "stream").getD (.bool false))
          let sent : SentRequest :=
            { url := backend_url, verify := verify, headers := headers,
              body := some (.obj fields), params := [] }
          -- `request.json()` is cached, so the logging code downstream sees
          -- the dict with the overwritten `model` field
          if is_stream then
            handle_streaming_request { req with body_json := some (.obj fields) }
              config sent bk ls
          else
            match bk with
            | .connectError msg =>
              { outcome := connection_error_response msg, sent := some sent,
                log := [], updates := [] }
            | .response status _h chunks =>
              sync_finish { req with body_json := some (.obj fields) }
                (some sent) status chunks ls
        | _ => mk500 none [] "TypeError"
    | .GET =>
      let sent : SentRequest :=
        { url := backend_url, verify := verify, headers := headers,
          body := none, params := req.query_params }
      match bk with
      | .connectError msg =>
        { outcome := connection_error_response msg, sent := some sent,
          log := [], updates := [] }
      | .response status _h chunks => sync_finish req (some sent) status chunks ls
    | .other _ => mk500 none [] "405: Method not allowed."

/-- Python `list.extend` over a decoded JSON value (line 285,
`all_models.extend(models_data)`): a list contributes its elements, a string
its characters, a dict its keys; any other value raises `TypeError`
(modelled as `none`). -/
def extend_elems : Json → Option (List Json)
  | .arr xs => some xs
  | .str s => some (s.toList.map (fun c => .str (String.mk [c])))
  | .obj fs => some (fs.map (fun kv => Json.str kv.fst))
  | _ => none

/-- Lines 278-295 of `proxy_logic.py`: the body of one iteration of the
model-aggregation loop, up to the surrounding `except` clauses.  Returns the
audit records inserted and either the backend's contribution to the model
list or the exception that the loop's handlers swallow. -/
def models_try_fetch (req : RequestIn) (bk : BackendBehavior)
    (insert_error : Option String) : List LogRecord × Except String (List Json) :=
  match bk with
  | .connectError msg => ([], .error ("ConnectError: " ++ msg))
  | .response status _h chunks =>
    let content := chunks.flatten
    match log_request_response insert_error req status content false with
    | .error e => ([], .error e)
    | .ok rec =>
      if status = 200 then
        match (utf8Decode content).bind json_loads with
        | none => ([rec], .error "JSONDecodeError")
        | some j =>
          match j with
          | .obj fs =>
            match dictGet fs "data" with
            | none => ([rec], .error "TypeError: NoneType is not iterable")
            | some v =>
              match extend_elems v with
              | some xs => ([rec], .ok xs)
              | none => ([rec], .error "TypeError: value is not iterable")
          | _ => ([rec], .error "AttributeError: no attribute get")
      else if 400 ≤ status then
        match (utf8Decode content).bind json_loads with
        | some _ => ([rec], .ok [])
        | none => ([rec], .error "JSONDecodeError")
      else ([rec], .ok [])

/-- The contribution a backend makes to the aggregated model list after the
loop's exception handlers: its fetched entries on success, nothing when the
iteration raised. -/
def models_contribution (req : RequestIn) (bk : BackendBehavior)
    (insert_error : Option String) : List Json :=
  match (models_try_fetch req bk insert_error).snd with
  | .ok xs => xs
  | .error _ => []

/-- Lines 275-295 of `proxy_logic.py`: the aggregation loop over the distinct
base URLs, with each iteration's exceptions caught and that backend's
contribution omitted.  `all_models` and `logs` are the running
accumulators. -/
def models_loop (req : RequestIn) (bk : String → BackendBehavior)
    (ins : String → Option String) (all_models : List Json)
    (logs : List LogRecord) : List String → List Json × List LogRecord
  | [] => (all_models, logs)
  | u :: rest =>
    match models_try_fetch req (bk u) (ins u) with
    | (recs, .ok xs) => models_loop req bk ins (all_models ++ xs) (logs ++ recs) rest
    | (recs, .error _) => models_loop req bk ins all_models (logs ++ recs) rest

/-- Result of the model-listing call. -/
structure ModelsResult where
  object : String
  data : List Json
  sent : List SentRequest
  log : List LogRecord

/-- Lines 264-297 of `proxy_logic.py` (`proxy_models_request`): build headers
from the caller's credential only, enumerate the deduplicated base URLs the
configuration store returned, issue one GET per URL on a client created with
default TLS verification, and merge the successful contributions.  The
function always returns the `list` wrapper object. -/
def proxy_models_request (req : RequestIn) (base_urls : List String)
    (bk : String → BackendBehavior) (ins : String → Option String) : ModelsResult :=
  let headers : List (String × String) :=
    match req.authorization with
    | some a => if a = "" then [] else dictSet [] "Authorization" a
    | none => []
  let result := models_loop req bk ins [] [] base_urls
  { object := "list", data := result.fst,
    sent := base_urls.map (fun u =>
      { url := u ++ req.path, verify := true, headers := headers,
        body := none, params := [] }),
    log := result.snd }

/-- After replacing the value stored at `k`, searching for `k` finds the new
binding. -/
theorem find?_set_self {α : Type} (k : String) (v : α) :
    ∀ d : List (String × α), d.any (fun p => p.fst = k) = true →
      (d.map (fun p => if p.fst = k then (k, v) else p)).find? (fun p => p.fst = k)
        = some (k, v)
  | [], h => by simp at h
  | p :: rest, h => by
    by_cases hp : p.fst = k
    · rw [List.map_cons, if_pos hp, List.find?_cons_of_pos _ (by simp)]
    · have hr : rest.any (fun p => p.fst = k) = true := by
        simpa [List.any_cons, hp] using h
      rw [List.map_cons, if_neg hp, List.find?_cons_of_neg _ (by simp [hp])]
      exact find?_set_self k v rest hr

/-- Replacing the value stored at `k` does not disturb searches for another
key. -/
theorem find?_set_other {α : Type} (k k' : String) (v : α) (hne : k' ≠ k) :
    ∀ d : List (String × α),
      (d.map (fun p => if p.fst = k then (k, v) else p)).find? (fun p => p.fst = k')
        = d.find? (fun p => p.fst = k')
  | [] => rfl
  | p :: rest => by
    by_cases hpk : p.fst = k
    · have h1 : ¬ ((k, v).fst = k') := fun h => hne h.symm
      have h2 : ¬ (p.fst = k') := by rw [hpk]; exact fun h => hne h.symm
      rw [List.map_cons, if_pos hpk, List.find?_cons_of_neg _ (by simp [h1]),
        List.find?_cons_of_neg _ (by simp [h2])]
      exact find?_set_other k k' v hne rest
    · rw [List.map_cons, if_neg hpk]
      by_cases hp' : p.fst = k'
      · rw [List.find?_cons_of_pos _ (by simp [hp']), List.find?_cons_of_pos _ (by simp [hp'])]
      · rw [List.find?_cons_of_neg _ (by simp [hp']), List.find?_cons_of_neg _ (by simp [hp'])]
        exact find?_set_other k k' v hne rest

/-- Appending a binding for a key not already present makes it findable. -/
theorem find?_append_single {α : Type} (k : String) (v : α) :
    ∀ d : List (String × α), d.any (fun p => p.fst = k) = false →
      (d ++ [(k, v)]).find? (fun p => p.fst = k) = some (k, v)
  | [], _ => by rw [List.nil_append, List.find?_cons_of_pos _ (by simp)]
  | p :: rest, h => by
    have hp : ¬ (p.fst = k) := by
      intro hpk
      simp [List.any_cons, hpk] at h
    have hr : rest.any (fun p => p.fst = k) = false := by
      simpa [List.any_cons, hp] using h
    rw [List.cons_append, List.find?_cons_of_neg _ (by simp [hp])]
    exact find?_append_single k v rest hr

/-- Appending a binding for key `k` does not disturb searches for another
key. -/
theorem find?_append_other {α : Type} (k k' : String) (v : α) (hne : k' ≠ k) :
    ∀ d : List (String × α),
      (d ++ [(k, v)]).find? (fun p => p.fst = k') = d.find? (fun p => p.fst = k')
  | [] => by
    have h0 : ¬ ((k, v).fst = k') := fun h => hne h.symm
    rw [List.nil_append, List.find?_cons_of_neg _ (by simp [h0])]
  | p :: rest => by
    by_cases hp : p.fst = k'
    · rw [List.cons_append, List.find?_cons_of_pos _ (by simp [hp]),
        List.find?_cons_of_pos _ (by simp [hp])]
    · rw [List.cons_append, List.find?_cons_of_neg _ (by simp [hp]),
        List.find?_cons_of_neg _ (by simp [hp])]
      exact find?_append_other k k' v hne rest

/-- Looking up the key just assigned finds the assigned value. -/
theorem dictGet_dictSet_self {α : Type} (d : List (String × α)) (k : String) (v : α) :
    dictGet (dictSet d k v) k = some v := by
  unfold dictGet dictSet
  by_cases h : d.any (fun p => p.fst = k)
  · rw [if_pos h, find?_set_self k v d h]
    rfl
  · rw [if_neg h, find?_append_single k v d (Bool.eq_false_iff.mpr h)]
    rfl

/-- Assigning one key leaves lookups of every other key unchanged. -/
theorem dictGet_dictSet_other {α : Type} (d : List (String × α)) (k k' : String)
    (v : α) (hne : k' ≠ k) :
    dictGet (dictSet d k v) k' = dictGet d k' := by
  unfold dictGet dictSet
  by_cases h : d.any (fun p => p.fst = k)
  · rw [if_pos h, find?_set_other k k' v hne d]
  · rw [if_neg h, find?_append_other k k' v hne d]

/-- The streaming handler reports exactly the outbound request it was built
for. -/
theorem handle_streaming_sent (req : RequestIn) (config : ProxyConfig)
    (s : SentRequest) (bk : BackendBehavior) (ls : LogStoreBehavior) :
    (handle_streaming_request req config s bk ls).sent = some s := by
  unfold handle_streaming_request
  split
  · rfl
  · split
    · rfl
    · split
      · rfl
      · rfl

/-- The synchronous finisher passes the outbound-request field through. -/
theorem sync_finish_sent (req : RequestIn) (sent : Option SentRequest)
    (status : Nat) (chunks : List (List Nat)) (ls : LogStoreBehavior) :
    (sync_finish req sent status chunks ls).sent = sent := by
  unfold sync_finish
  cases log_request_response ls.insert_error req status chunks.flatten false with
  | error e => rfl
  | ok rec =>
    dsimp only
    by_cases h4 : 400 ≤ status
    · rw [if_pos h4]
    · rw [if_neg h4]
      cases (utf8Decode chunks.flatten).bind json_loads <;> rfl

/-- Every outbound request a dispatch builds carries the headers computed by
`build_headers`, and on the POST path the body with the substituted model
name. -/
theorem proxy_request_sent_shape (req : RequestIn) (name : String)
    (config : ProxyConfig) (bk : BackendBehavior) (ls : LogStoreBehavior)
    (s : SentRequest)
    (hs : (proxy_request req name (some config) bk ls).sent = some s) :
    s.headers = build_headers req.authorization config ∧
    s.verify = !config.ignore_ssl_verify ∧
    (∀ fields0, req.method = .POST → req.body_json = some (.obj fields0) →
      s.body = some (.obj (dictSet fields0 "model" (.str config.backend_model_name)))) := by
  obtain ⟨m, path, qp, auth, bj, bt⟩ := req
  cases m with
  | GET =>
    cases bk with
    | connectError msg =>
      simp only [proxy_request] at hs
      injection hs with h
      subst h
      exact ⟨rfl, rfl, fun _ h => nomatch h⟩
    | response status hdrs chunks =>
      simp only [proxy_request] at hs
      rw [sync_finish_sent] at hs
      injection hs with h
      subst h
      exact ⟨rfl, rfl, fun _ h => nomatch h⟩
  | POST =>
    cases bj with
    | none => simp [proxy_request, mk500] at hs
    | some body0 =>
      cases body0 with
      | obj fields0 =>
        simp only [proxy_request] at hs
        by_cases hstr : jsonTruthy ((dictGet
            (dictSet fields0 "model" (.str config.backend_model_name)) "stream").getD
            (.bool false)) = true
        · rw [if_pos hstr, handle_streaming_sent] at hs
          injection hs with h
          subst h
          refine ⟨rfl, rfl, ?_⟩
          intro f _ hf
          injection hf with hf
          injection hf with hf
          subst hf
          rfl
        · rw [if_neg hstr] at hs
          cases bk with
          | connectError msg =>
            injection hs with h
            subst h
            refine ⟨rfl, rfl, ?_⟩
            intro f _ hf
            injection hf with hf
            injection hf with hf
            subst hf
            rfl
          | response status hdrs chunks =>
            rw [sync_finish_sent] at hs
            injection hs with h
            subst h
            refine ⟨rfl, rfl, ?_⟩
            intro f _ hf
            injection hf with hf
            injection hf with hf
            subst hf
            rfl
      | null => simp [proxy_request, mk500] at hs
      | bool b => simp [proxy_request, mk500] at hs
      | num n => simp [proxy_request, mk500] at hs
      | str st => simp [proxy_request, mk500] at hs
      | arr xs => simp [proxy_request, mk500] at hs
  | other verb => simp [proxy_request, mk500] at hs

/-- A streaming insert with a healthy collaborator succeeds whenever the
logged request body fits the LogEntry schema: the provisional response body
is absent and therefore always valid. -/
theorem log_request_response_stream_ok (req : RequestIn) (status : Nat)
    (content : List Nat)
    (hqb : dict_body_ok (capture_request_body req) = true) :
    log_request_response none req status content true
      = .ok { request_method := req.method.name, request_path := req.path,
              request_body := capture_request_body req,
              response_status_code := status, response_body := none } := by
  simp [log_request_response, dict_body_ok_none, hqb]

/-- C1: for every inbound request whose proxy-model name resolves to a
configuration, the outbound `Authorization` header follows the credential
precedence of lines 81-87: a set `backendApiKey` yields
`Bearer <backendApiKey>` regardless of the caller's header; with the key
absent, the caller's header is forwarded verbatim, and no header is sent when
the caller supplied none.  Set and absent are Python truthiness, as the
source tests both fields with `if <value>:` (the admin collaborator stores an
empty string for a blank key field, making the empty string the stored form
of an absent key). -/
theorem c1_outbound_authorization (req : RequestIn) (name : String)
    (config : ProxyConfig) (bk : BackendBehavior) (ls : LogStoreBehavior)
    (s : SentRequest)
    (hs : (proxy_request req name (some config) bk ls).sent = some s) :
    (∀ k, config.backend_api_key = some k → k ≠ "" →
      headerGet s.headers "Authorization" = some ("Bearer " ++ k)) ∧
    ((config.backend_api_key = none ∨ config.backend_api_key = some "") →
      (∀ a, req.authorization = some a → a ≠ "" →
        headerGet s.headers "Authorization" = some a) ∧
      (req.authorization = none → headerGet s.headers "Authorization" = none)) := by
  have hh := (proxy_request_sent_shape req name config bk ls s hs).1
  rw [hh]
  constructor
  · intro k hk hkne
    cases hauth : req.authorization with
    | none => simp [build_headers, hk, hkne, headerGet, dictSet, dictGet]
    | some a =>
      by_cases ha : a = ""
      · simp [build_headers, hk, hkne, ha, headerGet, dictSet, dictGet]
      · simp [build_headers, hk, hkne, ha, headerGet, dictSet, dictGet]
  · intro hk
    constructor
    · intro a ha hane
      rcases hk with hk | hk
      · simp [build_headers, hk, ha, hane, headerGet, dictSet, dictGet]
      · simp [build_headers, hk, ha, hane, headerGet, dictSet, dictGet]
    · intro hnone
      rcases hk with hk | hk
      · simp [build_headers, hk, hnone, headerGet, dictGet]
      · simp [build_headers, hk, hnone, headerGet, dictGet]

/-- C1 witness: a configured key `k1` with a caller credential present yields
the outbound header `Bearer k1`. -/
theorem c1_outbound_authorization_witness :
    headerGet (build_headers (some "sk-caller")
      ⟨"gpt-fast", "http://b1", "real-model", some "k1", false⟩) "Authorization"
      = some "Bearer k1" := by
  have h := c1_outbound_authorization
    ⟨.GET, "/v1/models", [], some "sk-caller", none, none⟩ "gpt-fast"
    ⟨"gpt-fast", "http://b1", "real-model", some "k1", false⟩
    (.response 200 [] []) ⟨none, none, none⟩
    ⟨"http://b1/v1/models", true,
      build_headers (some "sk-caller")
        ⟨"gpt-fast", "http://b1", "real-model", some "k1", false⟩, none, []⟩
    rfl
  exact h.1 "k1" rfl (by decide)

/-- C2: for every POST dispatch whose body decodes as a JSON object, the body
forwarded to the backend carries `backendModelName` in its `model` field and
leaves the binding of every other key unchanged (lines 100-102). -/
theorem c2_model_substitution (req : RequestIn) (name : String)
    (config : ProxyConfig) (bk : BackendBehavior) (ls : LogStoreBehavior)
    (fields0 : List (String × Json)) (s : SentRequest)
    (hm : req.method = .POST) (hb : req.body_json = some (.obj fields0))
    (hs : (proxy_request req name (some config) bk ls).sent = some s) :
    ∃ flds, s.body = some (.obj flds) ∧
      dictGet flds "model" = some (.str config.backend_model_name) ∧
      ∀ k, k ≠ "model" → dictGet flds k = dictGet fields0 k := by
  have hb2 := (proxy_request_sent_shape req name config bk ls s hs).2.2 fields0 hm hb
  exact ⟨_, hb2, dictGet_dictSet_self _ _ _,
    fun k hk => dictGet_dictSet_other _ _ _ _ hk⟩

/-- C2 witness: the scenario body `model = "gpt-fast"` with a `messages`
field is forwarded with `model = "real-model"` and `messages` untouched. -/
theorem c2_model_substitution_witness :
    dictGet (dictSet [("model", Json.str "gpt-fast"), ("messages", Json.arr [])]
        "model" (Json.str "real-model")) "model" = some (Json.str "real-model") ∧
    dictGet (dictSet [("model", Json.str "gpt-fast"), ("messages", Json.arr [])]
        "model" (Json.str "real-model")) "messages"
      = dictGet [("model", Json.str "gpt-fast"), ("messages", Json.arr [])] "messages" := by
  obtain ⟨flds, hbody, hmodel, hothers⟩ := c2_model_substitution
    ⟨.POST, "/v1/chat/completions", [], none,
      some (.obj [("model", .str "gpt-fast"), ("messages", .arr [])]), none⟩
    "gpt-fast" ⟨"gpt-fast", "http://b1", "real-model", none, false⟩
    (.response 200 [] []) ⟨none, none, none⟩
    [("model", .str "gpt-fast"), ("messages", .arr [])]
    ⟨"http://b1/v1/chat/completions", true, [],
      some (.obj (dictSet [("model", Json.str "gpt-fast"), ("messages", Json.arr [])]
        "model" (Json.str "real-model"))), []⟩
    rfl rfl rfl
  injection hbody with hbody
  injection hbody with hbody
  rw [hbody]
  exact ⟨hmodel, hothers "messages" (by decide)⟩

/-- C3: a streaming call whose backend answers below 400 relays exactly the
backend's chunk sequence, in order and byte-identical; and when finalization
succeeds (record found, stream non-empty, bytes decodable, update applied),
the persisted body is the JSON document parsed from the chunk
concatenation. -/
theorem c3_streaming_round_trip (req : RequestIn) (name : String)
    (config : ProxyConfig) (fields0 : List (String × Json)) (ls : LogStoreBehavior)
    (status : Nat) (hdrs : List (String × String)) (chunks : List (List Nat))
    (text : String) (j : Json)
    (hm : req.method = .POST) (hb : req.body_json = some (.obj fields0))
    (hstream : jsonTruthy ((dictGet (dictSet fields0 "model"
      (.str config.backend_model_name)) "stream").getD (.bool false)) = true)
    (hst : status < 400) (hins : ls.insert_error = none) :
    (proxy_request req name (some config) (.response status hdrs chunks) ls).outcome
      = .stream chunks ∧
    (ls.find_result.isSome = true → chunks ≠ [] →
      utf8Decode chunks.flatten = some text → json_loads text = some j →
      ls.update_error = none →
      (proxy_request req name (some config) (.response status hdrs chunks) ls).updates
        = [.json j]) := by
  obtain ⟨m, path, qp, auth, bj, bt⟩ := req
  cases hm
  cases hb
  have hlog := log_request_response_stream_ok
    ⟨Method.POST, path, qp, auth,
      some (Json.obj (dictSet fields0 "model" (Json.str config.backend_model_name))), bt⟩
    status [] rfl
  simp only [proxy_request]
  rw [if_pos hstream]
  simp only [handle_streaming_request, hins, hlog]
  rw [if_neg (Nat.not_le.mpr hst)]
  refine ⟨rfl, ?_⟩
  intro hfind hne hdec hloads hupd
  have hne2 : chunks.isEmpty = false := by
    cases chunks
    · exact absurd rfl hne
    · rfl
  simp [hfind, hne2, hdec, hloads, hupd]

/-- C3 witness: a two-chunk stream carrying a JSON object is relayed as those
two chunks and finalized to that object. -/
theorem c3_streaming_round_trip_witness :
    (proxy_request ⟨.POST, "/v1/chat/completions", [], none,
        some (.obj [("model", .str "gpt-fast"), ("stream", .bool true)]), none⟩
      "gpt-fast" (some ⟨"gpt-fast", "http://b1", "real-model", none, false⟩)
      (.response 200 [] [utf8Encode "\x7b\"a\"", utf8Encode ": 1\x7d"])
      ⟨none, some 1, none⟩).outcome
      = .stream [utf8Encode "\x7b\"a\"", utf8Encode ": 1\x7d"] ∧
    (proxy_request ⟨.POST, "/v1/chat/completions", [], none,
        some (.obj [("model", .str "gpt-fast"), ("stream", .bool true)]), none⟩
      "gpt-fast" (some ⟨"gpt-fast", "http://b1", "real-model", none, false⟩)
      (.response 200 [] [utf8Encode "\x7b\"a\"", utf8Encode ": 1\x7d"])
      ⟨none, some 1, none⟩).updates
      = [.json (.obj [("a", .num 1)])] := by
  have h := c3_streaming_round_trip
    ⟨.POST, "/v1/chat/completions", [], none,
      some (.obj [("model", .str "gpt-fast"), ("stream", .bool true)]), none⟩
    "gpt-fast" ⟨"gpt-fast", "http://b1", "real-model", none, false⟩
    [("model", .str "gpt-fast"), ("stream", .bool true)] ⟨none, some 1, none⟩
    200 [] [utf8Encode "\x7b\"a\"", utf8Encode ": 1\x7d"]
    "\x7b\"a\": 1\x7d" (.obj [("a", .num 1)])
    rfl rfl rfl (by decide) rfl
  exact ⟨h.1, h.2 rfl (by decide) rfl rfl rfl⟩

/-- The synchronous finisher relays a backend status of at least 400 with
the same status and the serialized error detail, provided the payload fits
the LogEntry schema (absent, a JSON object, or JSON null) and the logged
request body does too — otherwise the audit insert would raise first. -/
theorem sync_finish_error_relay (req : RequestIn) (sent : Option SentRequest)
    (status : Nat) (chunks : List (List Nat)) (ls : LogStoreBehavior) (text : String)
    (hst : 400 ≤ status) (hdec : utf8Decode chunks.flatten = some text)
    (hins : ls.insert_error = none)
    (hqb : dict_body_ok (capture_request_body req) = true)
    (hform : chunks.flatten = [] ∨ (∃ fs, json_loads text = some (.obj fs)) ∨
      json_loads text = some .null) :
    (sync_finish req sent status chunks ls).outcome
      = .response status (json_dumps (error_detail_of text)) := by
  unfold sync_finish log_request_response capture_response_body
  rcases hform with hflat | ⟨fs, hfs⟩ | hnull
  · have hempty : chunks.flatten.isEmpty = true := by rw [hflat]; rfl
    rw [hflat] at hdec
    have htext : text = "" := by
      have h0 : (some "" : Option String) = some text := hdec
      injection h0 with h0
      exact h0.symm
    subst htext
    simp [hempty, hflat, hins, hst, hqb, dict_body_ok_none]
    rfl
  · have hempty : chunks.flatten.isEmpty = false := by
      cases hfl : chunks.flatten with
      | nil =>
        rw [hfl] at hdec
        have htext : text = "" := by
          have h0 : (some "" : Option String) = some text := hdec
          injection h0 with h0
          exact h0.symm
        rw [htext] at hfs
        exact nomatch hfs
      | cons b bs => rfl
    simp [hempty, hdec, hfs, hins, hst, hqb, dict_body_ok_obj]
  · have hempty : chunks.flatten.isEmpty = false := by
      cases hfl : chunks.flatten with
      | nil =>
        rw [hfl] at hdec
        have htext : text = "" := by
          have h0 : (some "" : Option String) = some text := hdec
          injection h0 with h0
          exact h0.symm
        rw [htext] at hnull
        exact nomatch hnull
      | cons b bs => rfl
    simp [hempty, hdec, hnull, hins, hst, hqb, dict_body_ok_none]

/-- A response body that is present but fits no LogEntry field form (not a
JSON object and not JSON null) makes the audit insert raise, so the
synchronous path ends in the catch-all 500 with no record inserted, whatever
the status code. -/
theorem sync_finish_validation_500 (req : RequestIn) (sent : Option SentRequest)
    (status : Nat) (chunks : List (List Nat)) (ls : LogStoreBehavior) (text : String)
    (hdec : utf8Decode chunks.flatten = some text)
    (hne : chunks.flatten ≠ [])
    (hnobj : ∀ fs, json_loads text ≠ some (.obj fs))
    (hnnull : json_loads text ≠ some .null) :
    (sync_finish req sent status chunks ls).outcome
      = unexpected_error_response "ValidationError" ∧
    (sync_finish req sent status chunks ls).log = [] := by
  unfold sync_finish log_request_response capture_response_body
  have hempty : chunks.flatten.isEmpty = false := by
    cases hfl : chunks.flatten with
    | nil => exact absurd hfl hne
    | cons b bs => rfl
  cases hl : json_loads text with
  | none => constructor <;> simp [hempty, hdec, hl, dict_body_ok, mk500]
  | some j =>
    cases j with
    | null => exact absurd hl hnnull
    | obj fs => exact absurd hl (hnobj fs)
    | bool b => constructor <;> simp [hempty, hdec, hl, dict_body_ok, mk500]
    | num n => constructor <;> simp [hempty, hdec, hl, dict_body_ok, mk500]
    | str s => constructor <;> simp [hempty, hdec, hl, dict_body_ok, mk500]
    | arr xs => constructor <;> simp [hempty, hdec, hl, dict_body_ok, mk500]

/-- C4 (amended): on a non-streaming dispatch with backend status at least
400 whose payload is absent, a JSON object, or JSON null — the only forms
the LogEntry pydantic schema admits — the caller receives exactly the
backend's status code and, as body, the JSON re-serialization of the payload
(lines 136-149): JSON-equivalent to the backend's payload but not
byte-identical in general.  Any other present payload (raw text, or a
non-object JSON document) makes the LogEntry construction at line 57 raise
before the relay code runs, and the caller receives the generic 500
instead. -/
theorem c4_error_status_relay (req : RequestIn) (name : String) (config : ProxyConfig)
    (status : Nat) (hdrs : List (String × String)) (chunks : List (List Nat))
    (ls : LogStoreBehavior) (text : String)
    (hmeth : req.method = .GET ∨ (req.method = .POST ∧ ∃ fields0,
      req.body_json = some (.obj fields0) ∧
      jsonTruthy ((dictGet (dictSet fields0 "model" (.str config.backend_model_name))
        "stream").getD (.bool false)) = false))
    (hst : 400 ≤ status)
    (hdec : utf8Decode chunks.flatten = some text)
    (hins : ls.insert_error = none) :
    ((chunks.flatten = [] ∨ (∃ fs, json_loads text = some (.obj fs)) ∨
        json_loads text = some .null) →
      (proxy_request req name (some config) (.response status hdrs chunks) ls).outcome
        = .response status (json_dumps (error_detail_of text))) ∧
    (chunks.flatten ≠ [] → (∀ fs, json_loads text ≠ some (.obj fs)) →
      json_loads text ≠ some .null →
      (proxy_request req name (some config) (.response status hdrs chunks) ls).outcome
        = unexpected_error_response "ValidationError") := by
  obtain ⟨m, path, qp, auth, bj, bt⟩ := req
  rcases hmeth with hm | ⟨hm, fields0, hb, hstream⟩
  · cases hm
    simp only [proxy_request]
    exact ⟨fun hform => sync_finish_error_relay _ _ _ _ _ _ hst hdec hins rfl hform,
      fun hne hnobj hnnull =>
        (sync_finish_validation_500 _ _ _ _ _ _ hdec hne hnobj hnnull).1⟩
  · cases hm
    cases hb
    simp only [proxy_request]
    rw [if_neg (by rw [hstream]; exact Bool.false_ne_true)]
    exact ⟨fun hform => sync_finish_error_relay _ _ _ _ _ _ hst hdec hins rfl hform,
      fun hne hnobj hnnull =>
        (sync_finish_validation_500 _ _ _ _ _ _ hdec hne hnobj hnnull).1⟩

/-- C4 counterexample: a backend 400 whose payload is the non-JSON text
`oops` is not relayed at all — the LogEntry construction raises and the
caller gets the catch-all 500, never a 400; and even a relayed JSON payload
is re-serialized, so the caller's body differs bytewise from the backend's
payload (here the backend's compact document gains a space). -/
theorem c4_error_body_counterexample :
    (proxy_request ⟨.GET, "/v1/models", [], none, none, none⟩ "m"
      (some ⟨"m", "http://b", "bm", none, false⟩)
      (.response 400 [] [[111, 111, 112, 115]])
      ⟨none, none, none⟩).outcome
      = unexpected_error_response "ValidationError" ∧
    (∀ body, unexpected_error_response "ValidationError"
      ≠ CallerOutcome.response 400 body) ∧
    (proxy_request ⟨.GET, "/v1/models", [], none, none, none⟩ "m"
      (some ⟨"m", "http://b", "bm", none, false⟩)
      (.response 400 [] [utf8Encode "\x7b\"a\":1\x7d"])
      ⟨none, none, none⟩).outcome
      = .response 400 "\x7b\"a\": 1\x7d" ∧
    ("\x7b\"a\": 1\x7d" : String) ≠ "\x7b\"a\":1\x7d" := by
  refine ⟨rfl, ?_, rfl, by decide⟩
  intro body h
  injection h with h1 h2
  exact absurd h1 (by decide)

/-- The synchronous finisher inserts at most one audit record. -/
theorem sync_finish_log_le (req : RequestIn) (sent : Option SentRequest)
    (status : Nat) (chunks : List (List Nat)) (ls : LogStoreBehavior) :
    (sync_finish req sent status chunks ls).log.length ≤ 1 := by
  unfold sync_finish
  cases log_request_response ls.insert_error req status chunks.flatten false with
  | error e => simp [mk500]
  | ok rec =>
    dsimp only
    by_cases h4 : 400 ≤ status
    · rw [if_pos h4]
      simp
    · rw [if_neg h4]
      cases (utf8Decode chunks.flatten).bind json_loads <;> simp [mk500]

/-- The synchronous path never applies a late body update. -/
theorem sync_finish_updates_nil (req : RequestIn) (sent : Option SentRequest)
    (status : Nat) (chunks : List (List Nat)) (ls : LogStoreBehavior) :
    (sync_finish req sent status chunks ls).updates = [] := by
  unfold sync_finish
  cases log_request_response ls.insert_error req status chunks.flatten false with
  | error e => rfl
  | ok rec =>
    dsimp only
    by_cases h4 : 400 ≤ status
    · rw [if_pos h4]
    · rw [if_neg h4]
      cases (utf8Decode chunks.flatten).bind json_loads <;> rfl

/-- The streaming handler inserts at most one audit record. -/
theorem handle_streaming_log_le (req : RequestIn) (config : ProxyConfig)
    (s : SentRequest) (bk : BackendBehavior) (ls : LogStoreBehavior) :
    (handle_streaming_request req config s bk ls).log.length ≤ 1 := by
  unfold handle_streaming_request
  split
  · simp
  · split
    · simp
    · split
      · simp
      · simp

/-- The streaming handler applies at most one late body update. -/
theorem handle_streaming_updates_le (req : RequestIn) (config : ProxyConfig)
    (s : SentRequest) (bk : BackendBehavior) (ls : LogStoreBehavior) :
    (handle_streaming_request req config s bk ls).updates.length ≤ 1 := by
  unfold handle_streaming_request
  split
  · simp
  · split
    · simp
    · split
      · simp
      · dsimp only
        split
        · split
          · simp
          · split
            · simp
            · split <;> simp
        · simp

/-- With a responding backend and a succeeding insert, the synchronous path
inserts exactly one audit record (whatever the status code), provided both
captured bodies fit the LogEntry schema: the response payload must be
absent, a JSON object, or JSON null. -/
theorem sync_finish_log_exact (req : RequestIn) (sent : Option SentRequest)
    (status : Nat) (chunks : List (List Nat)) (ls : LogStoreBehavior) (text : String)
    (hins : ls.insert_error = none)
    (hqb : dict_body_ok (capture_request_body req) = true)
    (hdec : utf8Decode chunks.flatten = some text)
    (hform : chunks.flatten = [] ∨ (∃ fs, json_loads text = some (.obj fs)) ∨
      json_loads text = some .null) :
    (sync_finish req sent status chunks ls).log.length = 1 := by
  unfold sync_finish log_request_response capture_response_body
  rcases hform with hflat | ⟨fs, hfs⟩ | hnull
  · have htext : text = "" := by
      rw [hflat] at hdec
      have h0 : (some "" : Option String) = some text := hdec
      injection h0 with h0
      exact h0.symm
    subst htext
    by_cases h4 : 400 ≤ status
    · simp [hflat, hins, hqb, h4, mk500, dict_body_ok_none]
    · simp [hflat, hins, hqb, h4, mk500, dict_body_ok_none]
      rfl
  · have hempty : chunks.flatten.isEmpty = false := by
      cases hfl : chunks.flatten with
      | nil =>
        rw [hfl] at hdec
        have htext : text = "" := by
          have h0 : (some "" : Option String) = some text := hdec
          injection h0 with h0
          exact h0.symm
        rw [htext] at hfs
        exact nomatch hfs
      | cons b bs => rfl
    by_cases h4 : 400 ≤ status <;> simp [hempty, hdec, hfs, hins, hqb, h4, mk500, dict_body_ok_obj]
  · have hempty : chunks.flatten.isEmpty = false := by
      cases hfl : chunks.flatten with
      | nil =>
        rw [hfl] at hdec
        have htext : text = "" := by
          have h0 : (some "" : Option String) = some text := hdec
          injection h0 with h0
          exact h0.symm
        rw [htext] at hnull
        exact nomatch hnull
      | cons b bs => rfl
    by_cases h4 : 400 ≤ status <;> simp [hempty, hdec, hnull, hins, hqb, h4, mk500, dict_body_ok_none]

/-- With a responding backend, a succeeding insert and a schema-valid logged
request body, the streaming handler inserts exactly one audit record. -/
theorem handle_streaming_log_exact (req : RequestIn) (config : ProxyConfig)
    (s : SentRequest) (status : Nat) (hdrs : List (String × String))
    (chunks : List (List Nat)) (ls : LogStoreBehavior)
    (hins : ls.insert_error = none)
    (hqb : dict_body_ok (capture_request_body req) = true) :
    (handle_streaming_request req config s (.response status hdrs chunks) ls).log.length
      = 1 := by
  have hlog := log_request_response_stream_ok req status [] hqb
  unfold handle_streaming_request
  simp only [hins, hlog]
  by_cases h4 : 400 ≤ status
  · simp [h4]
  · simp only [h4, if_false, Bool.false_eq_true]
    simp

/-- Every dispatch inserts at most one audit record and applies at most one
late update. -/
theorem proxy_request_log_le (req : RequestIn) (name : String)
    (config? : Option ProxyConfig) (bk : BackendBehavior) (ls : LogStoreBehavior) :
    (proxy_request req name config? bk ls).log.length ≤ 1 ∧
    (proxy_request req name config? bk ls).updates.length ≤ 1 := by
  obtain ⟨m, path, qp, auth, bj, bt⟩ := req
  cases config? with
  | none => constructor <;> simp [proxy_request]
  | some config =>
    cases m with
    | GET =>
      cases bk with
      | connectError msg => constructor <;> simp [proxy_request]
      | response status hdrs chunks =>
        refine ⟨?_, ?_⟩
        · simpa only [proxy_request] using
            sync_finish_log_le ⟨.GET, path, qp, auth, bj, bt⟩ _ status chunks ls
        · simp only [proxy_request]
          rw [sync_finish_updates_nil]
          simp
    | POST =>
      cases bj with
      | none => constructor <;> simp [proxy_request, mk500]
      | some body0 =>
        cases body0 with
        | obj fields0 =>
          simp only [proxy_request]
          by_cases hstr : jsonTruthy ((dictGet
              (dictSet fields0 "model" (.str config.backend_model_name)) "stream").getD
              (.bool false)) = true
          · rw [if_pos hstr]
            exact ⟨handle_streaming_log_le _ _ _ _ _, handle_streaming_updates_le _ _ _ _ _⟩
          · rw [if_neg hstr]
            cases bk with
            | connectError msg => constructor <;> simp
            | response status hdrs chunks =>
              refine ⟨sync_finish_log_le _ _ _ _ _, ?_⟩
              rw [sync_finish_updates_nil]
              simp
        | null => constructor <;> simp [proxy_request, mk500]
        | bool b => constructor <;> simp [proxy_request, mk500]
        | num n => constructor <;> simp [proxy_request, mk500]
        | str s => constructor <;> simp [proxy_request, mk500]
        | arr xs => constructor <;> simp [proxy_request, mk500]
    | other verb => constructor <;> simp [proxy_request, mk500]

/-- GET and POST dispatches whose backend responds, whose insert succeeds
and whose response payload fits the LogEntry schema log exactly once. -/
theorem proxy_request_log_exact (req : RequestIn) (name : String)
    (config : ProxyConfig) (status : Nat) (hdrs : List (String × String))
    (chunks : List (List Nat)) (ls : LogStoreBehavior) (text : String)
    (hins : ls.insert_error = none)
    (hmeth : req.method = .GET ∨ (req.method = .POST ∧
      ∃ f, req.body_json = some (.obj f)))
    (hdec : utf8Decode chunks.flatten = some text)
    (hform : chunks.flatten = [] ∨ (∃ fs, json_loads text = some (.obj fs)) ∨
      json_loads text = some .null) :
    (proxy_request req name (some config) (.response status hdrs chunks) ls).log.length
      = 1 := by
  obtain ⟨m, path, qp, auth, bj, bt⟩ := req
  rcases hmeth with hm | ⟨hm, f, hb⟩
  · cases hm
    simp only [proxy_request]
    exact sync_finish_log_exact _ _ _ _ _ _ hins rfl hdec hform
  · cases hm
    cases hb
    simp only [proxy_request]
    by_cases hstr : jsonTruthy ((dictGet
        (dictSet f "model" (.str config.backend_model_name)) "stream").getD
        (.bool false)) = true
    · rw [if_pos hstr]
      exact handle_streaming_log_exact _ _ _ _ _ _ _ hins rfl
    · rw [if_neg hstr]
      exact sync_finish_log_exact _ _ _ _ _ _ hins rfl hdec hform

/-- C5 (amended): every dispatch inserts at most one audit record — exactly
one when the backend produces a response, the insert succeeds, the method is
GET or POST with a JSON-object body, and the response payload fits the
LogEntry schema (absent, a JSON object, or JSON null) — and applies at most
one late update to it; a transport failure, a body-decode failure, a
schema-invalid body or a log-store failure leaves no record at all. -/
theorem c5_single_log_entry (req : RequestIn) (name : String)
    (config? : Option ProxyConfig) (bk : BackendBehavior) (ls : LogStoreBehavior) :
    (proxy_request req name config? bk ls).log.length ≤ 1 ∧
    (proxy_request req name config? bk ls).updates.length ≤ 1 ∧
    (∀ config status hdrs chunks text, config? = some config →
      bk = .response status hdrs chunks → ls.insert_error = none →
      (req.method = .GET ∨ (req.method = .POST ∧
        ∃ f, req.body_json = some (.obj f))) →
      utf8Decode chunks.flatten = some text →
      (chunks.flatten = [] ∨ (∃ fs, json_loads text = some (.obj fs)) ∨
        json_loads text = some .null) →
      (proxy_request req name config? bk ls).log.length = 1) := by
  refine ⟨(proxy_request_log_le req name config? bk ls).1,
    (proxy_request_log_le req name config? bk ls).2, ?_⟩
  intro config status hdrs chunks text hc hbk hins hmeth hdec hform
  subst hc
  subst hbk
  exact proxy_request_log_exact req name config status hdrs chunks ls text
    hins hmeth hdec hform

/-- C5 counterexample: a dispatched GET (the outbound request exists) whose
backend connection fails produces zero log entries, not one. -/
theorem c5_single_log_entry_counterexample :
    (proxy_request ⟨.GET, "/v1/models", [], none, none, none⟩ "m"
      (some ⟨"m", "http://b", "bm", none, false⟩) (.connectError "refused")
      ⟨none, none, none⟩).sent.isSome = true ∧
    (proxy_request ⟨.GET, "/v1/models", [], none, none, none⟩ "m"
      (some ⟨"m", "http://b", "bm", none, false⟩) (.connectError "refused")
      ⟨none, none, none⟩).log = [] :=
  ⟨rfl, rfl⟩

/-- C5 witness: a responding backend with a succeeding insert yields exactly
one log record. -/
theorem c5_single_log_entry_witness :
    (proxy_request ⟨.GET, "/v1/models", [], none, none, none⟩ "m"
      (some ⟨"m", "http://b", "bm", none, false⟩)
      (.response 200 [] [utf8Encode "\x7b\x7d"]) ⟨none, none, none⟩).log.length
      = 1 :=
  (c5_single_log_entry ⟨.GET, "/v1/models", [], none, none, none⟩ "m"
    (some ⟨"m", "http://b", "bm", none, false⟩)
    (.response 200 [] [utf8Encode "\x7b\x7d"]) ⟨none, none, none⟩).2.2
    ⟨"m", "http://b", "bm", none, false⟩ 200 [] [utf8Encode "\x7b\x7d"] "\x7b\x7d"
    rfl rfl rfl (Or.inl rfl) rfl (Or.inr (Or.inl ⟨[], rfl⟩))

/-- C6 evaluation: a dispatch with an unsupported verb is answered by the
generic 500 response, because the `HTTPException(405)` the code raises for
this case at line 130 sits inside the `try` whose `except Exception` at
line 160 converts every exception into the catch-all 500. -/
theorem c6_method_not_allowed_eval :
    (proxy_request ⟨.other "DELETE", "/v1/chat/completions", [], none, none, none⟩
      "gpt-fast" (some ⟨"gpt-fast", "http://b", "bm", none, false⟩)
      (.response 200 [] []) ⟨none, none, none⟩).outcome
      = .response 500 "\x7b\"error\": \"Unexpected error: 405: Method not allowed.\"\x7d" :=
  rfl

/-- C4 witness: a backend 404 carrying a JSON error document is relayed as
status 404 with that document re-serialized. -/
theorem c4_error_status_relay_witness :
    (proxy_request ⟨.GET, "/v1/models", [], none, none, none⟩ "m"
      (some ⟨"m", "http://b", "bm", none, false⟩)
      (.response 404 [] [utf8Encode "\x7b\"error\": \"no\"\x7d"])
      ⟨none, none, none⟩).outcome
      = .response 404 (json_dumps (error_detail_of "\x7b\"error\": \"no\"\x7d")) := by
  exact (c4_error_status_relay ⟨.GET, "/v1/models", [], none, none, none⟩ "m"
    ⟨"m", "http://b", "bm", none, false⟩ 404 [] [utf8Encode "\x7b\"error\": \"no\"\x7d"]
    ⟨none, none, none⟩ "\x7b\"error\": \"no\"\x7d" (Or.inl rfl) (by decide) rfl rfl).1
    (Or.inr (Or.inl ⟨[("error", Json.str "no")], rfl⟩))

/-- C7 counterexample: a completed stream whose accumulated bytes are not
valid UTF-8 (the single byte 255) is delivered intact to the caller, but its
body is captured nowhere: no late update is applied and the provisional
record keeps an absent body, although a response body is present and fails
JSON decoding. -/
theorem c7_raw_text_capture_counterexample :
    (proxy_request ⟨.POST, "/v1/chat/completions", [], none,
        some (.obj [("model", .str "m"), ("stream", .bool true)]), none⟩ "m"
      (some ⟨"m", "http://b", "bm", none, false⟩)
      (.response 200 [] [[255]]) ⟨none, some 1, none⟩).updates = [] ∧
    (proxy_request ⟨.POST, "/v1/chat/completions", [], none,
        some (.obj [("model", .str "m"), ("stream", .bool true)]), none⟩ "m"
      (some ⟨"m", "http://b", "bm", none, false⟩)
      (.response 200 [] [[255]]) ⟨none, some 1, none⟩).log.map
        LogRecord.response_body = [none] ∧
    (proxy_request ⟨.POST, "/v1/chat/completions", [], none,
        some (.obj [("model", .str "m"), ("stream", .bool true)]), none⟩ "m"
      (some ⟨"m", "http://b", "bm", none, false⟩)
      (.response 200 [] [[255]]) ⟨none, some 1, none⟩).outcome = .stream [[255]] :=
  ⟨rfl, rfl, rfl⟩

/-- C7 (amended): raw text reaches the audit log only through the streaming
finalization, whose raw `update_one` bypasses the pydantic schema: a
completed stream whose accumulated bytes decode as UTF-8 but fail JSON
decoding is, at successful finalization, persisted as raw text, and the
decode failure never errors the client-visible stream.  On the non-streaming
path raw text is never captured: a present body that fails JSON decoding
makes the LogEntry construction raise a ValidationError, so the caller
receives the generic 500 and no record is inserted.  Bytes that fail UTF-8
text decoding are captured nowhere — the streaming record keeps its
provisional absent body while the stream is still delivered intact. -/
theorem c7_raw_text_capture (req : RequestIn) (name : String)
    (config : ProxyConfig) (fields0 : List (String × Json)) (ls : LogStoreBehavior)
    (status : Nat) (hdrs : List (String × String)) (chunks : List (List Nat))
    (content : List Nat) (text : String)
    (hm : req.method = .POST) (hb : req.body_json = some (.obj fields0))
    (hstream : jsonTruthy ((dictGet (dictSet fields0 "model"
      (.str config.backend_model_name)) "stream").getD (.bool false)) = true)
    (hst : status < 400) (hins : ls.insert_error = none) :
    (content ≠ [] → utf8Decode content = some text → json_loads text = none →
      log_request_response none req status content false = .error "ValidationError") ∧
    (∀ req2 : RequestIn, req2.method = .GET → chunks.flatten ≠ [] →
      utf8Decode chunks.flatten = some text → json_loads text = none →
      (proxy_request req2 name (some config) (.response status hdrs chunks) ls).outcome
          = unexpected_error_response "ValidationError" ∧
      (proxy_request req2 name (some config) (.response status hdrs chunks) ls).log
          = []) ∧
    (ls.find_result.isSome = true → chunks ≠ [] →
      utf8Decode chunks.flatten = some text → json_loads text = none →
      ls.update_error = none →
      (proxy_request req name (some config) (.response status hdrs chunks) ls).updates
          = [.text text] ∧
      (proxy_request req name (some config) (.response status hdrs chunks) ls).outcome
          = .stream chunks) ∧
    (utf8Decode chunks.flatten = none →
      (proxy_request req name (some config) (.response status hdrs chunks) ls).outcome
          = .stream chunks ∧
      (proxy_request req name (some config) (.response status hdrs chunks) ls).updates
          = []) := by
  obtain ⟨m, path, qp, auth, bj, bt⟩ := req
  cases hm
  cases hb
  have hlog := log_request_response_stream_ok
    ⟨Method.POST, path, qp, auth,
      some (Json.obj (dictSet fields0 "model" (Json.str config.backend_model_name))), bt⟩
    status [] rfl
  refine ⟨?_, ?_, ?_, ?_⟩
  · intro hc hdec hloads
    have hce : content.isEmpty = false := by
      cases content
      · exact absurd rfl hc
      · rfl
    simp [log_request_response, capture_response_body, hce, hdec, hloads, dict_body_ok]
  · intro req2 hm2 hne hdec hloads
    obtain ⟨m2, path2, qp2, auth2, bj2, bt2⟩ := req2
    cases hm2
    simp only [proxy_request]
    exact sync_finish_validation_500 _ _ _ _ _ _ hdec hne
      (fun fs h => by rw [hloads] at h; exact nomatch h)
      (by rw [hloads]; exact fun h => nomatch h)
  · intro hfind hne hdec hloads hupd
    have hne2 : chunks.isEmpty = false := by
      cases chunks
      · exact absurd rfl hne
      · rfl
    constructor
    · simp only [proxy_request]
      rw [if_pos hstream]
      simp only [handle_streaming_request, hins, hlog]
      rw [if_neg (Nat.not_le.mpr hst)]
      simp [hfind, hne2, hdec, hloads, hupd]
    · simp only [proxy_request]
      rw [if_pos hstream]
      simp only [handle_streaming_request, hins, hlog]
      rw [if_neg (Nat.not_le.mpr hst)]
  · intro hdecn
    constructor
    · simp only [proxy_request]
      rw [if_pos hstream]
      simp only [handle_streaming_request, hins, hlog]
      rw [if_neg (Nat.not_le.mpr hst)]
    · simp only [proxy_request]
      rw [if_pos hstream]
      simp only [handle_streaming_request, hins, hlog]
      rw [if_neg (Nat.not_le.mpr hst)]
      simp [hdecn]

/-- C7 witness: a stream of plain SSE text that is not JSON is delivered
intact and finalized into the log as raw text. -/
theorem c7_raw_text_capture_witness :
    (proxy_request ⟨.POST, "/v1/chat/completions", [], none,
        some (.obj [("model", .str "m"), ("stream", .bool true)]), none⟩ "m"
      (some ⟨"m", "http://b", "bm", none, false⟩)
      (.response 200 [] [utf8Encode "data: hi\n\n"]) ⟨none, some 1, none⟩).updates
      = [.text "data: hi\n\n"] ∧
    (proxy_request ⟨.POST, "/v1/chat/completions", [], none,
        some (.obj [("model", .str "m"), ("stream", .bool true)]), none⟩ "m"
      (some ⟨"m", "http://b", "bm", none, false⟩)
      (.response 200 [] [utf8Encode "data: hi\n\n"]) ⟨none, some 1, none⟩).outcome
      = .stream [utf8Encode "data: hi\n\n"] := by
  have h := c7_raw_text_capture
    ⟨.POST, "/v1/chat/completions", [], none,
      some (.obj [("model", .str "m"), ("stream", .bool true)]), none⟩ "m"
    ⟨"m", "http://b", "bm", none, false⟩
    [("model", .str "m"), ("stream", .bool true)] ⟨none, some 1, none⟩
    200 [] [utf8Encode "data: hi\n\n"] [] "data: hi\n\n"
    rfl rfl rfl (by decide) rfl
  exact h.2.2.1 rfl (by decide) rfl rfl rfl

/-- The synchronous finisher's caller-visible outcome does not depend on the
update collaborator. -/
theorem sync_finish_outcome_indep (req : RequestIn) (sent : Option SentRequest)
    (status : Nat) (chunks : List (List Nat)) (ls : LogStoreBehavior) :
    (sync_finish req sent status chunks { ls with update_error := none }).outcome
      = (sync_finish req sent status chunks ls).outcome := by
  unfold sync_finish
  rw [show ({ ls with update_error := none } : LogStoreBehavior).insert_error
    = ls.insert_error from rfl]

/-- The streaming handler's caller-visible outcome does not depend on the
update collaborator. -/
theorem handle_streaming_outcome_indep (req : RequestIn) (config : ProxyConfig)
    (s : SentRequest) (bk : BackendBehavior) (ls : LogStoreBehavior) :
    (handle_streaming_request req config s bk { ls with update_error := none }).outcome
      = (handle_streaming_request req config s bk ls).outcome := by
  unfold handle_streaming_request
  rw [show ({ ls with update_error := none } : LogStoreBehavior).insert_error
    = ls.insert_error from rfl]
  cases bk with
  | connectError msg => rfl
  | response status hdrs chunks =>
    dsimp only
    cases log_request_response ls.insert_error req status [] true with
    | error e => rfl
    | ok rec =>
      dsimp only
      by_cases h4 : 400 ≤ status
      · rw [if_pos h4, if_pos h4]
      · rw [if_neg h4, if_neg h4]

/-- C9 (amended): a failure of the log-store update on the streaming path
never alters the caller-visible outcome — the outcome with an arbitrary
update behaviour equals the outcome with a succeeding update.  (An insert
failure, by contrast, does alter the outcome; see the counterexample.) -/
theorem c9_update_failure_invisible (req : RequestIn) (name : String)
    (config? : Option ProxyConfig) (bk : BackendBehavior) (ls : LogStoreBehavior) :
    (proxy_request req name config? bk { ls with update_error := none }).outcome
      = (proxy_request req name config? bk ls).outcome := by
  obtain ⟨m, path, qp, auth, bj, bt⟩ := req
  cases config? with
  | none => rfl
  | some config =>
    cases m with
    | GET =>
      cases bk with
      | connectError msg => rfl
      | response status hdrs chunks =>
        simp only [proxy_request]
        exact sync_finish_outcome_indep _ _ _ _ _
    | POST =>
      cases bj with
      | none => rfl
      | some body0 =>
        cases body0 with
        | obj fields0 =>
          simp only [proxy_request]
          by_cases hstr : jsonTruthy ((dictGet
              (dictSet fields0 "model" (.str config.backend_model_name)) "stream").getD
              (.bool false)) = true
          · rw [if_pos hstr, if_pos hstr]
            exact handle_streaming_outcome_indep _ _ _ _ _
          · rw [if_neg hstr, if_neg hstr]
            cases bk with
            | connectError msg => rfl
            | response status hdrs chunks => exact sync_finish_outcome_indep _ _ _ _ _
        | null => rfl
        | bool b => rfl
        | num n => rfl
        | str s => rfl
        | arr xs => rfl
    | other verb => rfl

/-- C9 counterexample: with a healthy backend answering 200 with body
`\x7b\x7d`, a failing insert turns the caller's response into the generic
500 instead of the backend's parsed body, so a log-store failure does alter
the caller-visible outcome. -/
theorem c9_insert_failure_counterexample :
    (proxy_request ⟨.GET, "/v1/models", [], none, none, none⟩ "m"
      (some ⟨"m", "http://b", "bm", none, false⟩)
      (.response 200 [] [[123, 125]]) ⟨some "InsertFailed", none, none⟩).outcome
      = .response 500 "\x7b\"error\": \"Unexpected error: InsertFailed\"\x7d" ∧
    (proxy_request ⟨.GET, "/v1/models", [], none, none, none⟩ "m"
      (some ⟨"m", "http://b", "bm", none, false⟩)
      (.response 200 [] [[123, 125]]) ⟨none, none, none⟩).outcome
      = .jsonBody (.obj []) ∧
    (CallerOutcome.response 500 "\x7b\"error\": \"Unexpected error: InsertFailed\"\x7d"
      ≠ .jsonBody (.obj [])) :=
  ⟨rfl, rfl, fun h => nomatch h⟩

/-- The aggregation loop's accumulated model list is the accumulator followed
by the concatenation, in enumeration order, of the per-backend
contributions. -/
theorem models_loop_data (req : RequestIn) (bk : String → BackendBehavior)
    (ins : String → Option String) :
    ∀ (urls : List String) (acc : List Json) (logs : List LogRecord),
      (models_loop req bk ins acc logs urls).fst
        = acc ++ (urls.map (fun u => models_contribution req (bk u) (ins u))).flatten
  | [], acc, logs => by simp [models_loop]
  | u :: rest, acc, logs => by
    simp only [models_loop]
    cases hstep : models_try_fetch req (bk u) (ins u) with
    | mk recs r =>
      cases r with
      | ok xs =>
        rw [models_loop_data req bk ins rest (acc ++ xs) (logs ++ recs)]
        simp [models_contribution, hstep]
      | error e =>
        rw [models_loop_data req bk ins rest acc (logs ++ recs)]
        simp [models_contribution, hstep]

/-- C8: the model-listing call returns the `list` wrapper whose `data` is the
concatenation, in enumeration order over the deduplicated base URLs, of each
backend's contribution; a transport failure or a non-200 status makes a
backend contribute nothing (the loop swallows the failure and the aggregate
call still returns normally), and a 200 response whose JSON document carries
a `data` array contributes exactly its entries, with no cross-backend
de-duplication. -/
theorem c8_model_aggregation (req : RequestIn) (base_urls : List String)
    (bk : String → BackendBehavior) (ins : String → Option String) :
    (proxy_models_request req base_urls bk ins).object = "list" ∧
    (proxy_models_request req base_urls bk ins).data
      = (base_urls.map (fun u => models_contribution req (bk u) (ins u))).flatten ∧
    (∀ u msg, bk u = .connectError msg →
      models_contribution req (bk u) (ins u) = []) ∧
    (∀ u status hdrs chunks, bk u = .response status hdrs chunks → status ≠ 200 →
      models_contribution req (bk u) (ins u) = []) ∧
    (∀ u hdrs chunks text fs xs, bk u = .response 200 hdrs chunks →
      ins u = none → dict_body_ok (capture_request_body req) = true →
      utf8Decode chunks.flatten = some text →
      json_loads text = some (.obj fs) → dictGet fs "data" = some (.arr xs) →
      models_contribution req (bk u) (ins u) = xs) := by
  refine ⟨rfl, ?_, ?_, ?_, ?_⟩
  · simp only [proxy_models_request]
    exact models_loop_data req bk ins base_urls [] []
  · intro u msg h
    simp [models_contribution, models_try_fetch, h]
  · intro u status hdrs chunks h hne
    simp only [models_contribution, models_try_fetch, h]
    cases hlog : log_request_response (ins u) req status chunks.flatten false with
    | error e => rfl
    | ok rec =>
      dsimp only
      rw [if_neg hne]
      by_cases h4 : 400 ≤ status
      · rw [if_pos h4]
        cases (utf8Decode chunks.flatten).bind json_loads <;> rfl
      · rw [if_neg h4]
  · intro u hdrs chunks text fs xs hbk hinsu hqb hdec hloads hdata
    have hne : ¬ (chunks.flatten.isEmpty = true) := by
      intro hempty
      have hflat : chunks.flatten = [] := by
        cases hfl : chunks.flatten
        · rfl
        · rw [hfl] at hempty
          exact nomatch hempty
      rw [hflat] at hdec
      injection hdec with hdec
      rw [← hdec] at hloads
      exact nomatch hloads
    have hbind : (utf8Decode chunks.flatten).bind json_loads = some (.obj fs) := by
      rw [hdec]
      exact hloads
    simp only [models_contribution, models_try_fetch, hbk, log_request_response,
      capture_response_body, hne, hdec, hloads, hinsu, hqb, dict_body_ok_obj,
      if_false, if_true, hbind, hdata, extend_elems]
    simp [hloads, hdata, hqb, dict_body_ok_obj]

/-- C8 witness: with two configured base URLs, one healthy and one down, the
aggregate succeeds and returns exactly the healthy backend's entries. -/
theorem c8_model_aggregation_witness :
    (proxy_models_request ⟨.GET, "/v1/models", [], none, none, none⟩
      ["http://b1", "http://b2"]
      (fun u => if u = "http://b1"
        then .response 200 [] [utf8Encode "\x7b\"data\": [\x7b\"id\": \"m1\"\x7d]\x7d"]
        else .connectError "down")
      (fun _ => none)).data = [.obj [("id", .str "m1")]] := by
  have h := c8_model_aggregation ⟨.GET, "/v1/models", [], none, none, none⟩
    ["http://b1", "http://b2"]
    (fun u => if u = "http://b1"
      then .response 200 [] [utf8Encode "\x7b\"data\": [\x7b\"id\": \"m1\"\x7d]\x7d"]
      else .connectError "down")
    (fun _ => none)
  rw [h.2.1]
  rfl

/-- C10: every GET the model aggregator issues is sent with TLS verification
enabled (the aggregation client is created with the library default,
ignoring every configuration's `ignore_ssl_verify` flag) and with exactly
the caller's forwarded `Authorization` header — the aggregator reads only the
distinct base URLs from the configuration store, so no `backend_api_key` can
be injected. -/
theorem c10_models_caller_credential_only (req : RequestIn)
    (base_urls : List String) (bk : String → BackendBehavior)
    (ins : String → Option String) :
    ∀ s ∈ (proxy_models_request req base_urls bk ins).sent,
      s.verify = true ∧
      (∀ a, req.authorization = some a → a ≠ "" →
        s.headers = [("Authorization", a)]) ∧
      ((req.authorization = none ∨ req.authorization = some "") →
        s.headers = []) := by
  intro s hs
  simp only [proxy_models_request, List.mem_map] at hs
  obtain ⟨u, hu, rfl⟩ := hs
  refine ⟨rfl, ?_, ?_⟩
  · intro a ha hane
    simp [ha, hane, dictSet]
  · intro h
    rcases h with h | h <;> simp [h]

/-- C10 witness: with a caller credential present, the single issued request
verifies TLS and carries exactly that credential. -/
theorem c10_models_caller_credential_only_witness :
    ∃ s, (proxy_models_request ⟨.GET, "/v1/models", [], some "sk-caller", none, none⟩
        ["http://b1"] (fun _ => .connectError "x") (fun _ => none)).sent = [s] ∧
      s.verify = true ∧ s.headers = [("Authorization", "sk-caller")] := by
  have hmem : (⟨"http://b1/v1/models", true, [("Authorization", "sk-caller")], none, []⟩ :
      SentRequest) ∈ (proxy_models_request
        ⟨.GET, "/v1/models", [], some "sk-caller", none, none⟩
        ["http://b1"] (fun _ => .connectError "x") (fun _ => none)).sent := by
    exact List.mem_singleton.mpr rfl
  have h := c10_models_caller_credential_only
    ⟨.GET, "/v1/models", [], some "sk-caller", none, none⟩
    ["http://b1"] (fun _ => .connectError "x") (fun _ => none) _ hmem
  exact ⟨_, rfl, h.1, h.2.1 "sk-caller" rfl (by decide)⟩

end LiteProxy
